import Mathlib

/-!
Verification of the classification engine of the citizen-appeal routing
service (`src/task2/models.py`, `src/task03/main.py`).

Embedding conventions:
* Python floats are modelled as real numbers (`ℝ`); an embedding vector
  (`np.ndarray` row) is a `List ℝ`.
* The neural embedding model (`HuggingFaceClassifier.get_embedding`) is an
  external black box; it is modelled as an explicit function parameter
  `embed : String → Vec` (or `String → Except String Vec` when its failure
  behaviour matters: a raised Python exception is `Except.error msg` where
  `msg` is `str(e)`).
* Python `None` / a returned department string become `Option String`;
  a raised `HTTPException(status_code, detail)` becomes
  `Except.error ⟨status_code, detail⟩`.
* Python dicts with string keys (insertion-ordered) are association lists
  in insertion order.
* `sklearn.metrics.pairwise.cosine_similarity` on two single-row matrices
  is cosine similarity `dot a b / (‖a‖ * ‖b‖)`; `sklearn` normalises rows
  and leaves zero-norm rows unchanged, so a zero vector yields score 0.
* Python triple-quoted description strings are reproduced with their text
  content (interior whitespace normalised to single spaces).
-/

/-- An embedding vector: a single row of a numpy float array. -/
abbrev Vec := List ℝ

/-- Dot product of two vectors (`np.dot` on rows of equal length). -/
noncomputable def dot (a b : Vec) : ℝ := (List.zipWith (· * ·) a b).sum

/-- Euclidean norm of a vector. -/
noncomputable def vnorm (a : Vec) : ℝ := Real.sqrt (dot a a)

/-- `sklearn.metrics.pairwise.cosine_similarity(x, y)[0][0]`:
`dot x y / (‖x‖·‖y‖)`, with a zero-norm row left unnormalised by sklearn so
that the score degenerates to 0. -/
noncomputable def cosineSim (a b : Vec) : ℝ :=
  if vnorm a = 0 ∨ vnorm b = 0 then 0 else dot a b / (vnorm a * vnorm b)

/-- `models.py` lines 197–231: the department catalog hard-coded inside
`HuggingFaceClassifier.classify`, in source (dict-insertion) order. -/
def departmentDescriptions : List (String × String) :=
  [("Департамент транспорта",
    "Отвечает за транспортную инфраструктуру, дороги, общественный транспорт, парковки, светофоры, дорожные знаки, ремонт дорог, транспортные развязки, мосты, туннели, велодорожки, остановки, автобусы, трамваи, метро, такси."),
   ("Департамент культуры",
    "Отвечает за музеи, театры, библиотеки, культурные центры, выставки, концерты, фестивали, парки культуры, художественные студии, творческие кружки, культурные мероприятия, памятники, исторические здания, культурное наследие, искусство, музыку, литературу."),
   ("Департамент здравоохранения",
    "Отвечает за больницы, поликлиники, медицинские центры, аптеки, медицинское обслуживание, здоровье населения, профилактику заболеваний, медицинские услуги, врачей, медсестер, медицинское оборудование, вакцинацию, диспансеризацию."),
   ("Департамент образования",
    "Отвечает за школы, детские сады, университеты, колледжи, образовательные программы, учебные заведения, образование детей и взрослых, курсы, обучение, преподавателей, учебные материалы, образовательные стандарты."),
   ("Департамент экологии",
    "Отвечает за охрану окружающей среды, уборку мусора, озеленение, экологические программы, чистоту города, переработку отходов, экологическое образование, защиту природы, экологические нормы, мониторинг окружающей среды."),
   ("Департамент физической культуры и спорта",
    "Отвечает за спортивные объекты, стадионы, спортивные площадки, бассейны, спортивные секции, физкультуру, спортивные мероприятия, соревнования, тренировки, развитие спорта, спортивные программы.")]

/-- `fastapi.HTTPException(status_code, detail)`. -/
structure HTTPException where
  status_code : Nat
  detail : String
deriving DecidableEq, Repr

/-- Python `max` over a nonempty list of floats (`max(similarities.values())`,
`models.py` line 253). The `[]` case never arises in the program. -/
noncomputable def pyMax : List ℝ → ℝ
  | [] => 0
  | [x] => x
  | x :: y :: ys => max x (pyMax (y :: ys))

/-- Python `max(items, key=lambda x: x[1])` (`models.py` line 258): the
first element attaining the maximal second component wins, because Python's
`max` only replaces the current best on a strictly greater key. -/
noncomputable def pyMaxByVal : List (String × ℝ) → Option (String × ℝ)
  | [] => none
  | x :: xs =>
    match pyMaxByVal xs with
    | none => some x
    | some m => if m.2 > x.2 then some m else some x

/-- Lift an infallible embedding provider to the fallible interface. -/
def okEmbed (embed : String → Vec) : String → Except String Vec :=
  fun s => Except.ok (embed s)

/-- The dict comprehension `{dept: self.get_embedding(desc) for dept, desc in
department_descriptions.items()}` (`models.py` lines 238–241): embeds each
description in catalog order; the first raised exception propagates. -/
def embedDescriptions (embed : String → Except String Vec) :
    List (String × String) → Except String (List (String × Vec))
  | [] => Except.ok []
  | p :: rest =>
    match embed p.2 with
    | Except.error e => Except.error e
    | Except.ok v =>
      match embedDescriptions embed rest with
      | Except.error e => Except.error e
      | Except.ok vs => Except.ok ((p.1, v) :: vs)

/-- `HuggingFaceClassifier.classify` (`models.py` lines 183–267).
The `departments` parameter is accepted but never read by the body; the
catalog is the hard-coded `departmentDescriptions`.  Any exception raised
while embedding is caught by the `except` clause (lines 262–267) and
re-raised as `HTTPException(500, "Ошибка при классификации обращения: "
+ str(e))`.  Returns `Except.ok none` for Python `return None` (no
department cleared the 0.3 confidence threshold) and `Except.ok (some d)`
for `return best_department`. -/
noncomputable def classifyHF (embed : String → Except String Vec)
    (text : String) (departments : List String) :
    Except HTTPException (Option String) :=
  match embed text with
  | Except.error e =>
    Except.error ⟨500, "Ошибка при классификации обращения: " ++ e⟩
  | Except.ok text_embedding =>
    match embedDescriptions embed departmentDescriptions with
    | Except.error e =>
      Except.error ⟨500, "Ошибка при классификации обращения: " ++ e⟩
    | Except.ok department_embeddings =>
      let similarities : List (String × ℝ) :=
        department_embeddings.map fun q => (q.1, cosineSim text_embedding q.2)
      let max_similarity := pyMax (similarities.map Prod.snd)
      if max_similarity < 3 / 10 then Except.ok none
      else Except.ok ((pyMaxByVal similarities).map Prod.fst)

/-- The similarity table a successful run of `classify` computes (lines
244–247): one `(department, cosine-similarity)` pair per catalog entry. -/
noncomputable def simsOf (embed : String → Vec) (text : String) :
    List (String × ℝ) :=
  departmentDescriptions.map fun p => (p.1, cosineSim (embed text) (embed p.2))

/-- `max_similarity` of a successful run of `classify` (line 253). -/
noncomputable def maxSimOf (embed : String → Vec) (text : String) : ℝ :=
  pyMax ((simsOf embed text).map Prod.snd)

/-- The dict comprehension of lines 238–241, instrumented with the trace of
texts passed to `get_embedding`: embeds each description in catalog order and
records each description as it is embedded. -/
noncomputable def embedDescriptionsTraced (embed : String → Vec) :
    List (String × String) → List (String × Vec) × List String
  | [] => ([], [])
  | p :: rest =>
    let v := embed p.2
    let r := embedDescriptionsTraced embed rest
    ((p.1, v) :: r.1, p.2 :: r.2)

/-- `HuggingFaceClassifier.classify` with an infallible provider,
instrumented with the trace of texts passed to `get_embedding`, in call
order: the input text (line 235), then every catalog description (lines
238–241).  The first component is the classification outcome, the second
the per-call invocation trace. -/
noncomputable def classifyTraced (embed : String → Vec) (text : String)
    (departments : List String) :
    Except HTTPException (Option String) × List String :=
  let text_embedding := embed text
  let r := embedDescriptionsTraced embed departmentDescriptions
  let similarities : List (String × ℝ) :=
    r.1.map fun q => (q.1, cosineSim text_embedding q.2)
  let max_similarity := pyMax (similarities.map Prod.snd)
  (if max_similarity < 3 / 10 then Except.ok none
   else Except.ok ((pyMaxByVal similarities).map Prod.fst),
   text :: r.2)

/-- A degenerate embedding provider mapping every text to the vector `[1]`;
used to exercise the classifier on concrete inputs. -/
noncomputable def constEmbed1 : String → Vec := fun _ => [1]

/-- A JSON value, as produced by `response.json()`. -/
inductive Json where
  | str (s : String)
  | num (n : Int)
  | arr (xs : List Json)
  | obj (fields : List (String × Json))

/-- Python `j[k]` on a parsed JSON object, as an `Option` (a missing key or
a non-object raises `KeyError`/`TypeError`, modelled as `none`). -/
def Json.getField : Json → String → Option Json
  | Json.obj fs, k => fs.lookup k
  | _, _ => none

/-- Python `j[i]` on a parsed JSON array (an out-of-range index raises
`IndexError`, modelled as `none`). -/
def Json.getIndex : Json → Nat → Option Json
  | Json.arr xs, i => xs.get? i
  | _, _ => none

/-- The string content of a JSON value, when it is a string. -/
def Json.asString : Json → Option String
  | Json.str s => some s
  | _ => none

/-- An HTTP response as seen by `requests`: status code and parsed body. -/
structure HttpResponse where
  status : Nat
  body : Json

/-- `requests.post(...)` modelled by its sequence of available attempt
outcomes: the call consumes the first outcome; a transport failure is
`Except.error msg` (a `requests.exceptions.RequestException` whose
`str(e)` is `msg`).  An empty sequence behaves as a connection failure. -/
def requestsPost (attempts : List (Except String HttpResponse)) :
    Except String HttpResponse :=
  attempts.headD (Except.error "connection error")

/-- `response.raise_for_status()`: raises `requests.exceptions.HTTPError`
(here: `Except.error` with the status code in the message) exactly for
status codes 400–599; all other statuses pass through. -/
def raiseForStatus (r : HttpResponse) : Except String HttpResponse :=
  if 400 ≤ r.status ∧ r.status < 600 then
    Except.error (toString r.status ++ " Error")
  else Except.ok r

/-- Python `str.strip()`: removes leading and trailing whitespace. -/
def pyStrip (s : String) : String :=
  String.mk (((s.data.dropWhile Char.isWhitespace).reverse.dropWhile
    Char.isWhitespace).reverse)

/-- `result["choices"][0]["message"]["content"]` (`models.py` line 66). -/
def deepseekExtract (j : Json) : Option String :=
  ((((j.getField "choices").bind fun c => c.getIndex 0).bind fun m =>
      m.getField "message").bind fun m => m.getField "content").bind
    Json.asString

/-- `DeepSeekClassifier.classify` (`models.py` lines 33–76), abstracted over
the transport outcome.  A `RequestException` (transport failure or
`raise_for_status`) becomes `HTTPException(500, "Ошибка при обращении к
DeepSeek API: " + str(e))`; a `KeyError`/`IndexError` while extracting the
answer becomes `HTTPException(500, "Ошибка при обработке ответа от
DeepSeek: " + str(e))` (the `str(e)` of the lookup error is modelled by a
fixed marker).  On success the answer text is returned `.strip()`-ped. -/
def deepseekClassify (attempts : List (Except String HttpResponse))
    (text : String) (departments : List String) :
    Except HTTPException String :=
  match (requestsPost attempts).bind raiseForStatus with
  | Except.error e =>
    Except.error ⟨500, "Ошибка при обращении к DeepSeek API: " ++ e⟩
  | Except.ok response =>
    match deepseekExtract response.body with
    | some s => Except.ok (pyStrip s)
    | none =>
      Except.error ⟨500, "Ошибка при обработке ответа от DeepSeek: KeyError"⟩

/-- `result["output"]["text"]` (`models.py` line 113). -/
def qwenExtract (j : Json) : Option String :=
  ((j.getField "output").bind fun o => o.getField "text").bind Json.asString

/-- `QwenModel.classify` (`models.py` lines 79–115), abstracted over the
transport outcome.  Every exception — transport, `raise_for_status` or
answer extraction — is caught by the single `except Exception` clause and
becomes `HTTPException(500, "Ошибка Qwen: " + str(e))`. -/
def qwenClassify (attempts : List (Except String HttpResponse))
    (text : String) (departments : List String) :
    Except HTTPException String :=
  match (requestsPost attempts).bind raiseForStatus with
  | Except.error e => Except.error ⟨500, "Ошибка Qwen: " ++ e⟩
  | Except.ok response =>
    match qwenExtract response.body with
    | some s => Except.ok (pyStrip s)
    | none => Except.error ⟨500, "Ошибка Qwen: KeyError"⟩

/-- `result["result"]["alternatives"][0]["message"]["text"]`
(`models.py` line 157). -/
def yandexExtract (j : Json) : Option String :=
  (((((j.getField "result").bind fun r => r.getField "alternatives").bind
      fun a => a.getIndex 0).bind fun m => m.getField "message").bind
    fun m => m.getField "text").bind Json.asString

/-- `YandexGPTModel.classify` (`models.py` lines 118–159), abstracted over
the transport outcome.  Every exception is caught by the single
`except Exception` clause and becomes
`HTTPException(500, "Ошибка YandexGPT: " + str(e))`. -/
def yandexClassify (attempts : List (Except String HttpResponse))
    (text : String) (departments : List String) :
    Except HTTPException String :=
  match (requestsPost attempts).bind raiseForStatus with
  | Except.error e => Except.error ⟨500, "Ошибка YandexGPT: " ++ e⟩
  | Except.ok response =>
    match yandexExtract response.body with
    | some s => Except.ok (pyStrip s)
    | none => Except.error ⟨500, "Ошибка YandexGPT: KeyError"⟩

/-- An instance constructed by the `get_model` factory: the selected backend
class applied to the supplied API key. -/
inductive BackendInstance where
  | deepseek (api_key : String)
  | qwen (api_key : String)
  | yandexgpt (api_key : String)
deriving DecidableEq, Repr

/-- `get_model` (`models.py` lines 269–282): looks the name up in the
`models` dict `{"deepseek": ..., "qwen": ..., "yandexgpt": ...}` and
constructs the corresponding class with the API key; any other name raises
`ValueError("Неподдерживаемая модель: " + model_name)`. -/
def get_model (model_name : String) (api_key : String) :
    Except String BackendInstance :=
  if model_name = "deepseek" then Except.ok (BackendInstance.deepseek api_key)
  else if model_name = "qwen" then Except.ok (BackendInstance.qwen api_key)
  else if model_name = "yandexgpt" then
    Except.ok (BackendInstance.yandexgpt api_key)
  else Except.error ("Неподдерживаемая модель: " ++ model_name)

/-- The description text of the first catalog entry (Департамент
транспорта). -/
def transportDescription : String := (departmentDescriptions.getD 0 ("", "")).2

/-- A failing embedding provider: `get_embedding` raises on every input
(model unavailable). -/
def failEmbed : String → Except String Vec := fun _ =>
  Except.error "модель недоступна"

/-- An embedding provider under which the text "остановка автобуса" has
exactly the embedding of the transport department description, and every
other text embeds to an orthogonal vector. -/
noncomputable def matchEmbed : String → Vec := fun s =>
  if s = "остановка автобуса" ∨ s = transportDescription then [1, 0]
  else [0, 1]

/-- A concrete HTTP response with the non-2xx status 300 whose body carries
a well-formed DeepSeek answer envelope. -/
def resp300 : HttpResponse :=
  ⟨300, Json.obj [("choices", Json.arr [Json.obj [("message",
    Json.obj [("content", Json.str "Департамент транспорта")])]])]⟩

lemma dot_cons (a : ℝ) (t : Vec) : dot (a :: t) (a :: t) = a * a + dot t t := by
  simp [dot]

lemma dot_self_nonneg (v : Vec) : 0 ≤ dot v v := by
  induction v with
  | nil => simp [dot]
  | cons a t ih =>
    rw [dot_cons]
    nlinarith [mul_self_nonneg a]

lemma dot_self_pos (v : Vec) (h : ∃ x ∈ v, x ≠ 0) : 0 < dot v v := by
  induction v with
  | nil => simp at h
  | cons a t ih =>
    rw [dot_cons]
    rcases h with ⟨x, hx, hxne⟩
    rcases List.mem_cons.mp hx with rfl | hx
    · nlinarith [mul_self_nonneg x, dot_self_nonneg t, mul_self_pos.mpr hxne]
    · nlinarith [mul_self_nonneg a, ih ⟨x, hx, hxne⟩]

lemma cosineSim_self (v : Vec) (h : 0 < dot v v) : cosineSim v v = 1 := by
  have hs : vnorm v ≠ 0 := by
    rw [vnorm]
    exact ne_of_gt (Real.sqrt_pos.mpr h)
  rw [cosineSim, if_neg (by tauto)]
  rw [vnorm, Real.mul_self_sqrt h.le]
  exact div_self (ne_of_gt h)

lemma le_pyMax (l : List ℝ) : ∀ x ∈ l, x ≤ pyMax l := by
  induction l with
  | nil => simp
  | cons a t ih =>
    cases t with
    | nil => intro x hx; simp at hx; simp [pyMax, hx]
    | cons b u =>
      intro x hx
      rcases List.mem_cons.mp hx with rfl | hx
      · rw [pyMax]; exact le_max_left _ _
      · rw [pyMax]; exact le_trans (ih x hx) (le_max_right _ _)

lemma pyMax_mem (l : List ℝ) (h : l ≠ []) : pyMax l ∈ l := by
  induction l with
  | nil => exact absurd rfl h
  | cons a t ih =>
    cases t with
    | nil => simp [pyMax]
    | cons b u =>
      rw [pyMax]
      rcases le_total (pyMax (b :: u)) a with hle | hle
      · rw [max_eq_left hle]; exact List.mem_cons_self _ _
      · rw [max_eq_right hle]
        exact List.mem_cons_of_mem _ (ih (by simp))

lemma pyMaxByVal_cons_some (x : String × ℝ) (xs : List (String × ℝ)) :
    ∃ m, pyMaxByVal (x :: xs) = some m := by
  cases h : pyMaxByVal xs with
  | none => exact ⟨x, by simp [pyMaxByVal, h]⟩
  | some p =>
    by_cases hc : p.2 > x.2
    · exact ⟨p, by simp [pyMaxByVal, h, hc]⟩
    · exact ⟨x, by simp [pyMaxByVal, h, hc]⟩

lemma pyMaxByVal_eq_none (l : List (String × ℝ)) (h : pyMaxByVal l = none) :
    l = [] := by
  cases l with
  | nil => rfl
  | cons x xs =>
    obtain ⟨m, hm⟩ := pyMaxByVal_cons_some x xs
    rw [hm] at h
    cases h

lemma pyMaxByVal_mem_le (l : List (String × ℝ)) (m : String × ℝ)
    (h : pyMaxByVal l = some m) : m ∈ l ∧ ∀ q ∈ l, q.2 ≤ m.2 := by
  induction l generalizing m with
  | nil => simp [pyMaxByVal] at h
  | cons x xs ih =>
    cases hx : pyMaxByVal xs with
    | none =>
      have hnil : xs = [] := pyMaxByVal_eq_none xs hx
      subst hnil
      simp [pyMaxByVal] at h
      subst h
      exact ⟨List.mem_singleton_self _, by simp⟩
    | some p =>
      obtain ⟨hpm, hple⟩ := ih p hx
      rw [pyMaxByVal, hx] at h
      dsimp only at h
      by_cases hc : p.2 > x.2
      · rw [if_pos hc] at h
        cases h
        refine ⟨List.mem_cons_of_mem _ hpm, ?_⟩
        intro q hq
        rcases List.mem_cons.mp hq with rfl | hq
        · exact le_of_lt hc
        · exact hple q hq
      · rw [if_neg hc] at h
        cases h
        refine ⟨List.mem_cons_self _ _, ?_⟩
        intro q hq
        rcases List.mem_cons.mp hq with rfl | hq
        · exact le_refl _
        · exact le_trans (hple q hq) (not_lt.mp hc)

lemma pyMaxByVal_snd (l : List (String × ℝ)) (m : String × ℝ)
    (h : pyMaxByVal l = some m) : m.2 = pyMax (l.map Prod.snd) := by
  obtain ⟨hm, hle⟩ := pyMaxByVal_mem_le l m h
  have h1 : m.2 ≤ pyMax (l.map Prod.snd) :=
    le_pyMax _ _ (List.mem_map_of_mem Prod.snd hm)
  have h2 : pyMax (l.map Prod.snd) ∈ l.map Prod.snd := by
    apply pyMax_mem
    intro hnil
    rw [List.map_eq_nil_iff] at hnil
    subst hnil
    simp [pyMaxByVal] at h
  obtain ⟨q, hq, hq2⟩ := List.mem_map.mp h2
  exact le_antisymm h1 (hq2 ▸ hle q hq)

lemma pyMaxByVal_decomp (l : List (String × ℝ)) (m : String × ℝ)
    (h : pyMaxByVal l = some m) :
    ∃ l₁ l₂, l = l₁ ++ m :: l₂ ∧ (∀ q ∈ l₁, q.2 < m.2) ∧
      ∀ q ∈ l₂, q.2 ≤ m.2 := by
  induction l generalizing m with
  | nil => simp [pyMaxByVal] at h
  | cons x xs ih =>
    cases hx : pyMaxByVal xs with
    | none =>
      have hnil : xs = [] := pyMaxByVal_eq_none xs hx
      subst hnil
      simp [pyMaxByVal] at h
      subst h
      exact ⟨[], [], rfl, by simp, by simp⟩
    | some p =>
      rw [pyMaxByVal, hx] at h
      dsimp only at h
      by_cases hc : p.2 > x.2
      · rw [if_pos hc] at h
        have hm : m = p := (Option.some.inj h).symm
        subst hm
        obtain ⟨l₁, l₂, hcat, hlt, hle⟩ := ih m hx
        refine ⟨x :: l₁, l₂, by rw [hcat]; rfl, ?_, hle⟩
        intro q hq
        rcases List.mem_cons.mp hq with rfl | hq
        · exact hc
        · exact hlt q hq
      · rw [if_neg hc] at h
        cases h
        obtain ⟨_, hple⟩ := pyMaxByVal_mem_le xs p hx
        refine ⟨[], xs, rfl, by simp, ?_⟩
        intro q hq
        exact le_trans (hple q hq) (not_lt.mp hc)

lemma pyMaxByVal_first (l₁ l₂ : List (String × ℝ)) (m : String × ℝ)
    (h₁ : ∀ q ∈ l₁, q.2 < m.2) (h₂ : ∀ q ∈ l₂, q.2 ≤ m.2) :
    pyMaxByVal (l₁ ++ m :: l₂) = some m := by
  induction l₁ with
  | nil =>
    cases hp : pyMaxByVal l₂ with
    | none => simp [pyMaxByVal, hp]
    | some p =>
      obtain ⟨hpm, _⟩ := pyMaxByVal_mem_le l₂ p hp
      have : ¬ p.2 > m.2 := not_lt.mpr (h₂ p hpm)
      simp [pyMaxByVal, hp, this]
  | cons x t ih =>
    have hih : pyMaxByVal (t ++ m :: l₂) = some m :=
      ih fun q hq => h₁ q (List.mem_cons_of_mem _ hq)
    have hx : m.2 > x.2 := h₁ x (List.mem_cons_self _ _)
    simp [pyMaxByVal, hih, hx]

lemma embedDescriptions_ok (e : String → Vec) (l : List (String × String)) :
    embedDescriptions (okEmbed e) l =
      Except.ok (l.map fun p => (p.1, e p.2)) := by
  induction l with
  | nil => rfl
  | cons p rest ih => simp [embedDescriptions, okEmbed, ih]

lemma embedDescriptions_names (embed : String → Except String Vec)
    (l : List (String × String)) (out : List (String × Vec))
    (h : embedDescriptions embed l = Except.ok out) :
    out.map Prod.fst = l.map Prod.fst := by
  induction l generalizing out with
  | nil =>
    simp [embedDescriptions] at h
    subst h
    rfl
  | cons p rest ih =>
    rw [embedDescriptions] at h
    cases he : embed p.2 with
    | error er => rw [he] at h; cases h
    | ok v =>
      rw [he] at h
      dsimp only at h
      cases hr : embedDescriptions embed rest with
      | error er => rw [hr] at h; cases h
      | ok vs =>
        rw [hr] at h
        dsimp only at h
        have hout : out = (p.1, v) :: vs := (Except.ok.inj h).symm
        subst hout
        simp [ih vs hr]

lemma classifyHF_ok (e : String → Vec) (t : String) (deps : List String) :
    classifyHF (okEmbed e) t deps =
      if maxSimOf e t < 3 / 10 then Except.ok none
      else Except.ok ((pyMaxByVal (simsOf e t)).map Prod.fst) := by
  rw [classifyHF]
  rw [show okEmbed e t = Except.ok (e t) from rfl]
  rw [embedDescriptions_ok]
  dsimp only
  rw [List.map_map]
  rfl

lemma embedDescriptionsTraced_fst (e : String → Vec)
    (l : List (String × String)) :
    (embedDescriptionsTraced e l).1 = l.map fun p => (p.1, e p.2) := by
  induction l with
  | nil => rfl
  | cons p rest ih => simp [embedDescriptionsTraced, ih]

lemma embedDescriptionsTraced_snd (e : String → Vec)
    (l : List (String × String)) :
    (embedDescriptionsTraced e l).2 = l.map Prod.snd := by
  induction l with
  | nil => rfl
  | cons p rest ih => simp [embedDescriptionsTraced, ih]

lemma classifyTraced_eq (e : String → Vec) (t : String) (deps : List String) :
    classifyTraced e t deps =
      (classifyHF (okEmbed e) t deps,
       t :: departmentDescriptions.map Prod.snd) := by
  rw [classifyTraced, classifyHF_ok,
    embedDescriptionsTraced_fst, embedDescriptionsTraced_snd,
    List.map_map]
  rfl

lemma dot_one_one : dot [(1 : ℝ)] [(1 : ℝ)] = 1 := by
  simp [dot]

lemma cosineSim_one_one : cosineSim [(1 : ℝ)] [(1 : ℝ)] = 1 := by
  apply cosineSim_self
  rw [dot_one_one]
  norm_num

lemma simsOf_const1 (t : String) :
    simsOf constEmbed1 t = departmentDescriptions.map fun p => (p.1, 1) := by
  simp [simsOf, constEmbed1, cosineSim_one_one]

lemma maxSimOf_const1 (t : String) : maxSimOf constEmbed1 t = 1 := by
  rw [maxSimOf, simsOf_const1, List.map_map]
  simp only [departmentDescriptions]
  norm_num [pyMax]

lemma classify_const1 (t : String) (deps : List String) :
    classifyHF (okEmbed constEmbed1) t deps =
      Except.ok (some "Департамент транспорта") := by
  rw [classifyHF_ok, maxSimOf_const1, if_neg (by norm_num), simsOf_const1]
  simp only [departmentDescriptions, List.map_cons, List.map_nil]
  norm_num [pyMaxByVal]

lemma cosineSim_e1_e2 : cosineSim [(1 : ℝ), 0] [(0 : ℝ), 1] = 0 := by
  have h1 : dot [(1 : ℝ), 0] [(0 : ℝ), 1] = 0 := by simp [dot]
  rw [cosineSim]
  split_ifs with h
  · rfl
  · rw [h1]; exact zero_div _

/-- Claim C1: the embedding classifier returns Undecided (`Except.ok none`)
exactly when the maximum cosine similarity between the text's embedding and
the department-description embeddings is strictly below the confidence
threshold 0.3; otherwise it returns Decided (`Except.ok (some d)`) with a
department attaining that maximum. -/
theorem classify_undecided_iff_below_threshold (e : String → Vec)
    (t : String) (deps : List String) :
    (classifyHF (okEmbed e) t deps = Except.ok none ↔
      maxSimOf e t < 3 / 10) ∧
    (¬ maxSimOf e t < 3 / 10 →
      ∃ d, classifyHF (okEmbed e) t deps = Except.ok (some d) ∧
        (d, maxSimOf e t) ∈ simsOf e t) := by
  rw [classifyHF_ok]
  by_cases hc : maxSimOf e t < 3 / 10
  · rw [if_pos hc]
    exact ⟨iff_of_true rfl hc, fun h => absurd hc h⟩
  · rw [if_neg hc]
    have hne : simsOf e t ≠ [] := by simp [simsOf, departmentDescriptions]
    obtain ⟨m, hm⟩ : ∃ m, pyMaxByVal (simsOf e t) = some m := by
      cases h' : pyMaxByVal (simsOf e t) with
      | none => exact absurd (pyMaxByVal_eq_none _ h') hne
      | some m => exact ⟨m, rfl⟩
    constructor
    · rw [hm]
      exact iff_of_false (by simp) hc
    · intro _
      refine ⟨m.1, by rw [hm]; rfl, ?_⟩
      have hsnd := pyMaxByVal_snd _ _ hm
      have hmem := (pyMaxByVal_mem_le _ _ hm).1
      have hms : maxSimOf e t = m.2 := by rw [maxSimOf]; exact hsnd.symm
      rw [hms, Prod.mk.eta]
      exact hmem

/-- Witness for C1 at a concrete provider: with the constant provider every
similarity is 1, so the threshold branch is not taken and a maximising
department is decided. -/
theorem classify_undecided_iff_below_threshold_witness :
    (¬ maxSimOf constEmbed1 "обращение" < 3 / 10) ∧
    (∃ d, classifyHF (okEmbed constEmbed1) "обращение" [] =
        Except.ok (some d) ∧
      (d, maxSimOf constEmbed1 "обращение") ∈ simsOf constEmbed1 "обращение") :=
  ⟨by rw [maxSimOf_const1]; norm_num,
   (classify_undecided_iff_below_threshold constEmbed1 "обращение" []).2
     (by rw [maxSimOf_const1]; norm_num)⟩

/-- Claim C2 (counterexample): the embedding classifier can return a
Decided department that is not an element of the department list passed
into the call, because the `departments` argument is never read: with a
provider under which every similarity is 1, the call with department list
`["Другое"]` decides "Департамент транспорта". -/
theorem classify_decided_outside_departments_cex :
    classifyHF (okEmbed constEmbed1) "обращение" ["Другое"] =
      Except.ok (some "Департамент транспорта") ∧
    "Департамент транспорта" ∉ (["Другое"] : List String) :=
  ⟨classify_const1 _ _, by decide⟩

/-- Claim C2 (amended): whenever the embedding classifier returns
Decided(d), the department d is an exact element of the classifier's own
hard-coded six-department catalog (not necessarily of the passed-in
department list, which is ignored). -/
theorem classify_decided_mem_catalog (embed : String → Except String Vec)
    (t : String) (deps : List String) (d : String)
    (h : classifyHF embed t deps = Except.ok (some d)) :
    d ∈ departmentDescriptions.map Prod.fst := by
  cases he : embed t with
  | error er => simp [classifyHF, he] at h
  | ok tv =>
    cases hd : embedDescriptions embed departmentDescriptions with
    | error er => simp [classifyHF, he, hd] at h
    | ok l =>
      simp only [classifyHF, he, hd] at h
      split_ifs at h with hc
      · simp at h
      · have h' := Except.ok.inj h
        obtain ⟨m, hm, hmd⟩ := Option.map_eq_some'.mp h'
        have hmem := (pyMaxByVal_mem_le _ _ hm).1
        obtain ⟨q, hq, hqm⟩ := List.mem_map.mp hmem
        rw [← hmd, ← hqm]
        rw [← embedDescriptions_names embed _ _ hd]
        exact List.mem_map_of_mem Prod.fst hq

/-- Witness for the amended C2: a concrete Decided outcome whose department
is in the hard-coded catalog. -/
theorem classify_decided_mem_catalog_witness :
    classifyHF (okEmbed constEmbed1) "обращение" [] =
      Except.ok (some "Департамент транспорта") ∧
    "Департамент транспорта" ∈ departmentDescriptions.map Prod.fst :=
  ⟨classify_const1 _ _,
   classify_decided_mem_catalog (okEmbed constEmbed1) "обращение" [] _
     (classify_const1 _ _)⟩

/-- Claim C3: whenever the embedding classifier decides a department, that
department is the first one in catalog iteration order attaining the
maximum similarity: all catalog entries before it score strictly below the
maximum and all entries after it score at most the maximum.  In particular
ties at the maximum resolve to the first-listed department; determinism
across repeated calls is definitional, since `classifyHF` is a pure
function of its arguments. -/
theorem classify_tie_first_in_catalog (e : String → Vec) (t : String)
    (deps : List String) (d : String)
    (h : classifyHF (okEmbed e) t deps = Except.ok (some d)) :
    ∃ l₁ l₂, simsOf e t = l₁ ++ (d, maxSimOf e t) :: l₂ ∧
      (∀ q ∈ l₁, q.2 < maxSimOf e t) ∧
      ∀ q ∈ l₂, q.2 ≤ maxSimOf e t := by
  rw [classifyHF_ok] at h
  split_ifs at h with hc
  · simp at h
  · have h' := Except.ok.inj h
    obtain ⟨m, hm, hmd⟩ := Option.map_eq_some'.mp h'
    have hsnd := pyMaxByVal_snd _ _ hm
    have hms : maxSimOf e t = m.2 := by rw [maxSimOf]; exact hsnd.symm
    obtain ⟨l₁, l₂, hcat, hlt, hle⟩ := pyMaxByVal_decomp _ _ hm
    have hdm : (d, maxSimOf e t) = m := by
      rw [hms, ← hmd, Prod.mk.eta]
    refine ⟨l₁, l₂, ?_, ?_, ?_⟩
    · rw [hcat, hdm]
    · intro q hq; rw [hms]; exact hlt q hq
    · intro q hq; rw [hms]; exact hle q hq

/-- Witness for C3: with the constant provider all six departments tie at
similarity 1 and the first catalog entry is decided. -/
theorem classify_tie_first_in_catalog_witness :
    classifyHF (okEmbed constEmbed1) "обращение" [] =
      Except.ok (some "Департамент транспорта") ∧
    ∃ l₁ l₂, simsOf constEmbed1 "обращение" =
        l₁ ++ ("Департамент транспорта",
          maxSimOf constEmbed1 "обращение") :: l₂ ∧
      (∀ q ∈ l₁, q.2 < maxSimOf constEmbed1 "обращение") ∧
      ∀ q ∈ l₂, q.2 ≤ maxSimOf constEmbed1 "обращение" :=
  ⟨classify_const1 _ _,
   classify_tie_first_in_catalog constEmbed1 "обращение" [] _
     (classify_const1 _ _)⟩

/-- Claim C10: the embedding classifier's result does not depend on the
`departments` argument: for any provider and text, any two department
lists produce the same result, because the body never reads the argument
and works on the hard-coded six-department catalog. -/
theorem classify_independent_of_departments
    (embed : String → Except String Vec) (t : String)
    (deps1 deps2 : List String) :
    classifyHF embed t deps1 = classifyHF embed t deps2 := rfl

/-- Claim C4: if a text's embedding is numerically identical to the
description embedding of catalog department `d` (and is a non-zero vector),
then `classify` returns Decided with that department: the similarity with
`d` is exactly 1.0 ≥ 0.3.  The hypothesis `hlt` is the catalog data-quality
invariant that no other department's description embedding is exactly
collinear with the text (its cosine score is strictly below 1). -/
theorem classify_exact_embedding_match (e : String → Vec) (t : String)
    (deps : List String) (d desc : String)
    (hmem : (d, desc) ∈ departmentDescriptions)
    (hEq : e t = e desc)
    (hnz : ∃ x ∈ e t, x ≠ 0)
    (hlt : ∀ p ∈ departmentDescriptions, p.1 ≠ d →
      cosineSim (e t) (e p.2) < 1) :
    classifyHF (okEmbed e) t deps = Except.ok (some d) := by
  obtain ⟨L1, L2, hcat⟩ := List.append_of_mem hmem
  have hnodup : (departmentDescriptions.map Prod.fst).Nodup := by decide
  rw [hcat, List.map_append, List.map_cons] at hnodup
  obtain ⟨h1, h2, hdisj⟩ := List.nodup_append.mp hnodup
  have hdL1 : ∀ p ∈ L1, p.1 ≠ d := by
    intro p hp hpd
    exact hdisj (List.mem_map_of_mem Prod.fst hp)
      (by rw [hpd]; exact List.mem_cons_self _ _)
  have hdL2 : ∀ p ∈ L2, p.1 ≠ d := by
    intro p hp hpd
    exact (List.nodup_cons.mp h2).1 (List.mem_map.mpr ⟨p, hp, hpd⟩)
  have hcos : cosineSim (e t) (e desc) = 1 := by
    rw [← hEq]; exact cosineSim_self _ (dot_self_pos _ hnz)
  have hsims : simsOf e t =
      (L1.map fun p => (p.1, cosineSim (e t) (e p.2))) ++
        (d, 1) :: (L2.map fun p => (p.1, cosineSim (e t) (e p.2))) := by
    rw [simsOf, hcat, List.map_append, List.map_cons]
    dsimp only
    rw [hcos]
  have hfirst : pyMaxByVal (simsOf e t) = some (d, 1) := by
    rw [hsims]
    apply pyMaxByVal_first
    · intro q hq
      obtain ⟨p, hp, hpq⟩ := List.mem_map.mp hq
      rw [← hpq]
      exact hlt p (by rw [hcat]; exact List.mem_append_left _ hp) (hdL1 p hp)
    · intro q hq
      obtain ⟨p, hp, hpq⟩ := List.mem_map.mp hq
      rw [← hpq]
      exact le_of_lt (hlt p
        (by rw [hcat]
            exact List.mem_append_right _ (List.mem_cons_of_mem _ hp))
        (hdL2 p hp))
  have hmax : maxSimOf e t = 1 := by
    have hsnd := pyMaxByVal_snd _ _ hfirst
    rw [maxSimOf, ← hsnd]
  rw [classifyHF_ok, hmax, if_neg (by norm_num), hfirst]
  rfl

lemma matchEmbed_text : matchEmbed "остановка автобуса" = [1, 0] :=
  if_pos (Or.inl rfl)

lemma matchEmbed_transport : matchEmbed transportDescription = [1, 0] :=
  if_pos (Or.inr rfl)

lemma matchEmbed_other (s : String) (h1 : s ≠ "остановка автобуса")
    (h2 : s ≠ transportDescription) : matchEmbed s = [0, 1] :=
  if_neg (by tauto)

/-- Witness for C4: under `matchEmbed` the text "остановка автобуса" embeds
exactly like the transport department description and is decided as
"Департамент транспорта". -/
theorem classify_exact_embedding_match_witness :
    matchEmbed "остановка автобуса" = matchEmbed transportDescription ∧
    classifyHF (okEmbed matchEmbed) "остановка автобуса" [] =
      Except.ok (some "Департамент транспорта") := by
  have hEq : matchEmbed "остановка автобуса" = matchEmbed transportDescription := by
    rw [matchEmbed_text, matchEmbed_transport]
  refine ⟨hEq, ?_⟩
  apply classify_exact_embedding_match matchEmbed "остановка автобуса" []
    "Департамент транспорта" transportDescription ?_ hEq ?_ ?_
  · exact List.mem_cons_self _ _
  · rw [matchEmbed_text]
    exact ⟨1, by simp, one_ne_zero⟩
  · intro p hp hne
    simp [departmentDescriptions] at hp
    rcases hp with rfl | rfl | rfl | rfl | rfl | rfl
    · exact absurd rfl hne
    all_goals
      rw [matchEmbed_text, matchEmbed_other _ (by decide) (by decide),
        cosineSim_e1_e2]
      norm_num

set_option maxRecDepth 8192 in
/-- Claim C5 (counterexample): the reference implementation has no
cross-call cache of department-description embeddings: over two calls to
`classify` with an unchanged catalog, the provider is invoked on the
transport department description twice (once per call). -/
theorem description_reembedded_each_call_cex :
    (((classifyTraced constEmbed1 "жалоба один" []).2 ++
        (classifyTraced constEmbed1 "жалоба два" []).2).count
      transportDescription) = 2 := by
  rw [classifyTraced_eq, classifyTraced_eq]
  decide

/-- Claim C5 (amended): each call to `classify` invokes the embedding
provider once for the input text and once for every catalog description —
descriptions are re-embedded on every call, with no cache — and the traced
run computes the same classification outcome as `classifyHF`. -/
theorem classify_embeds_descriptions_each_call (e : String → Vec)
    (t : String) (deps : List String) :
    (classifyTraced e t deps).2 =
      t :: departmentDescriptions.map Prod.snd ∧
    (classifyTraced e t deps).1 = classifyHF (okEmbed e) t deps := by
  rw [classifyTraced_eq]
  exact ⟨rfl, rfl⟩

/-- Claim C6: when embedding computation fails (the provider raises while
embedding the input text, or while embedding one of the catalog
descriptions), `classify` raises `HTTPException(500, ...)` carrying the
exception text — an outcome distinguishable from the normal Undecided
result `Except.ok none` (indeed from every non-exceptional result). -/
theorem classify_embed_failure_raises (embed : String → Except String Vec)
    (t : String) (deps : List String) (e : String)
    (h : embed t = Except.error e ∨
      ∃ v, embed t = Except.ok v ∧
        embedDescriptions embed departmentDescriptions = Except.error e) :
    classifyHF embed t deps =
      Except.error ⟨500, "Ошибка при классификации обращения: " ++ e⟩ ∧
    ∀ r : Option String, classifyHF embed t deps ≠ Except.ok r := by
  have hmain : classifyHF embed t deps =
      Except.error ⟨500, "Ошибка при классификации обращения: " ++ e⟩ := by
    rcases h with h | ⟨v, hv, hd⟩
    · simp [classifyHF, h]
    · simp [classifyHF, hv, hd]
  refine ⟨hmain, fun r hr => ?_⟩
  rw [hmain] at hr
  cases hr

/-- Witness for C6: a provider that is down on every input produces the
500-error outcome, not Undecided. -/
theorem classify_embed_failure_raises_witness :
    classifyHF failEmbed "жалоба" [] =
      Except.error ⟨500, "Ошибка при классификации обращения: " ++
        "модель недоступна"⟩ :=
  (classify_embed_failure_raises failEmbed "жалоба" [] "модель недоступна"
    (Or.inl rfl)).1

/-- Claim C7 (counterexample): `raise_for_status` only raises for statuses
400–599, so a non-2xx response outside that range is NOT surfaced as an
error: a status-300 response with a well-formed body makes
`DeepSeekClassifier.classify` return the answer normally. -/
theorem remote_non2xx_not_always_error_cex :
    deepseekClassify [Except.ok resp300] "обращение" [] =
      Except.ok "Департамент транспорта" ∧
    ¬ (200 ≤ resp300.status ∧ resp300.status ≤ 299) := by
  constructor
  · rfl
  · decide

/-- Claim C7 (amended): every remote-LLM backend (DeepSeek, Qwen,
YandexGPT) consumes exactly one transport attempt (no retry: later
attempts never influence the result), and surfaces an
`HTTPException(500, ...)` carrying the upstream detail on a transport
failure or on any 4xx/5xx response (e.g. HTTP 503), returning no partial
result; statuses outside 400–599 are not flagged by `raise_for_status`. -/
theorem remote_backends_fail_fast (a : Except String HttpResponse)
    (rest rest2 : List (Except String HttpResponse)) (t : String)
    (deps : List String) :
    (deepseekClassify (a :: rest) t deps =
        deepseekClassify (a :: rest2) t deps ∧
      qwenClassify (a :: rest) t deps = qwenClassify (a :: rest2) t deps ∧
      yandexClassify (a :: rest) t deps =
        yandexClassify (a :: rest2) t deps) ∧
    (∀ e, a = Except.error e →
      deepseekClassify (a :: rest) t deps =
        Except.error ⟨500, "Ошибка при обращении к DeepSeek API: " ++ e⟩ ∧
      qwenClassify (a :: rest) t deps =
        Except.error ⟨500, "Ошибка Qwen: " ++ e⟩ ∧
      yandexClassify (a :: rest) t deps =
        Except.error ⟨500, "Ошибка YandexGPT: " ++ e⟩) ∧
    (∀ r, a = Except.ok r → 400 ≤ r.status → r.status < 600 →
      deepseekClassify (a :: rest) t deps =
        Except.error ⟨500, "Ошибка при обращении к DeepSeek API: " ++
          (toString r.status ++ " Error")⟩ ∧
      qwenClassify (a :: rest) t deps =
        Except.error ⟨500, "Ошибка Qwen: " ++
          (toString r.status ++ " Error")⟩ ∧
      yandexClassify (a :: rest) t deps =
        Except.error ⟨500, "Ошибка YandexGPT: " ++
          (toString r.status ++ " Error")⟩) := by
  refine ⟨⟨rfl, rfl, rfl⟩, ?_, ?_⟩
  · intro e he
    subst he
    exact ⟨rfl, rfl, rfl⟩
  · intro r hr h4 h6
    subst hr
    refine ⟨?_, ?_, ?_⟩
    · simp [deepseekClassify, requestsPost, raiseForStatus, h4, h6,
        Except.bind]
    · simp [qwenClassify, requestsPost, raiseForStatus, h4, h6, Except.bind]
    · simp [yandexClassify, requestsPost, raiseForStatus, h4, h6,
        Except.bind]

/-- Witness for the amended C7: an HTTP 503 from the upstream makes each
backend raise the 500 error carrying the status detail. -/
theorem remote_backends_fail_fast_witness :
    deepseekClassify [Except.ok ⟨503, Json.obj []⟩] "обращение" [] =
      Except.error ⟨500, "Ошибка при обращении к DeepSeek API: " ++
        (toString (503 : Nat) ++ " Error")⟩ ∧
    qwenClassify [Except.ok ⟨503, Json.obj []⟩] "обращение" [] =
      Except.error ⟨500, "Ошибка Qwen: " ++
        (toString (503 : Nat) ++ " Error")⟩ ∧
    yandexClassify [Except.ok ⟨503, Json.obj []⟩] "обращение" [] =
      Except.error ⟨500, "Ошибка YandexGPT: " ++
        (toString (503 : Nat) ++ " Error")⟩ :=
  (remote_backends_fail_fast (Except.ok ⟨503, Json.obj []⟩) [] []
      "обращение" []).2.2 ⟨503, Json.obj []⟩ rfl (by decide) (by decide)

/-- Claim C8 (counterexample): the `get_model` factory does not support the
kind "embedding": it raises `ValueError` instead of returning a backend
instance (the embedding classifier is constructed directly, outside the
factory). -/
theorem get_model_embedding_unsupported_cex :
    get_model "embedding" "ключ" =
      Except.error "Неподдерживаемая модель: embedding" := by
  rfl

/-- Claim C8 (amended): the factory returns a backend instance for exactly
the three kinds deepseek, qwen and yandexgpt, and fails with
`ValueError("Неподдерживаемая модель: ...")` for every name outside that
set (including "embedding"); it performs no classification itself. -/
theorem get_model_enumerates_backends (model_name api_key : String) :
    (model_name = "deepseek" →
      get_model model_name api_key =
        Except.ok (BackendInstance.deepseek api_key)) ∧
    (model_name = "qwen" →
      get_model model_name api_key =
        Except.ok (BackendInstance.qwen api_key)) ∧
    (model_name = "yandexgpt" →
      get_model model_name api_key =
        Except.ok (BackendInstance.yandexgpt api_key)) ∧
    (model_name ∉ (["deepseek", "qwen", "yandexgpt"] : List String) →
      get_model model_name api_key =
        Except.error ("Неподдерживаемая модель: " ++ model_name)) := by
  refine ⟨?_, ?_, ?_, ?_⟩
  · intro h; subst h; rfl
  · intro h; subst h; rfl
  · intro h; subst h; rfl
  · intro h
    simp only [List.mem_cons, not_or] at h
    obtain ⟨h1, h2, h3, _⟩ := h
    rw [get_model, if_neg h1, if_neg h2, if_neg h3]

/-- Witness for the amended C8: a supported kind yields the corresponding
instance and the unsupported kind "embedding" yields the error. -/
theorem get_model_enumerates_backends_witness :
    get_model "deepseek" "ключ" =
      Except.ok (BackendInstance.deepseek "ключ") ∧
    get_model "embedding" "ключ" =
      Except.error ("Неподдерживаемая модель: " ++ "embedding") :=
  ⟨(get_model_enumerates_backends "deepseek" "ключ").1 rfl,
   (get_model_enumerates_backends "embedding" "ключ").2.2.2 (by decide)⟩

/-- Claim C9: the similarity scorer gives `score(v, v) = 1` for every
non-zero vector `v` (a vector with some non-zero component): cosine
self-similarity is maximal. -/
theorem score_self_similarity_one (v : Vec) (h : ∃ x ∈ v, x ≠ 0) :
    cosineSim v v = 1 :=
  cosineSim_self v (dot_self_pos v h)

/-- Witness for C9 on the concrete non-zero vector `[1]`. -/
theorem score_self_similarity_one_witness :
    (∃ x ∈ ([1] : Vec), x ≠ 0) ∧ cosineSim [1] [1] = 1 :=
  ⟨⟨1, by simp, one_ne_zero⟩,
   score_self_similarity_one [1] ⟨1, by simp, one_ne_zero⟩⟩
